import Mathlib

/-!
Verification of the sqlitevtab adapter layer.

Shallow embedding of `sqlitevtab/__init__.py` (the TableSource / Table /
Cursor / Row protocol-adaptation classes), `sqlitevtab/csv.py` and the
relevant part of `sqlitevtab/simple.py`.

Modelling conventions:
- A Python row iterator is embedded as the finite list of rows it yields;
  `iter.next()` pops the head, and `StopIteration` is the empty-list case.
- Mutation of cursor attributes is explicit state passing on `CursorState`.
- Python exceptions that the code lets escape (AttributeError, IndexError)
  are `Except.error` values; the embedded entry points return `Except`.
- The `table` back-reference stored by `Cursor.__init__` is not a field of
  `CursorState` because none of the embedded cursor entry points read it;
  the `row_iterator` capability that concrete cursors derive from the table
  is passed explicitly instead.
-/

namespace SqliteVtab

/-- `Row.__init__` (lines 239-241): an integer row id plus an ordered
sequence of column values. -/
structure Row (α : Type) where
  row_id : Int
  values : List α
deriving DecidableEq, Repr

/-- The mutable attributes of a `Cursor` instance. `iter` is `none` before
the first `Filter` call: `Cursor.__init__` (lines 180-183) sets only
`self.eof = False` and `self.row = None`, so reading `self.iter` earlier
raises `AttributeError`. -/
structure CursorState (α : Type) where
  eof : Bool
  row : Option (Row α)
  iter : Option (List (Row α))
deriving DecidableEq, Repr

/-- `Cursor.__init__` (lines 180-183): fresh cursor state right after
`Table.Open`. -/
def initCursor (α : Type) : CursorState α :=
  ⟨false, none, none⟩

/-- `Cursor.Eof` (lines 211-212): returns `self.eof`. -/
def Eof {α : Type} (c : CursorState α) : Bool :=
  c.eof

/-- `Cursor.Rowid` (lines 214-215): `self.row.row_id`; raises
`AttributeError` when `self.row` is `None`. -/
def Rowid {α : Type} (c : CursorState α) : Except String Int :=
  match c.row with
  | none => Except.error "AttributeError: NoneType has no attribute row_id"
  | some r => Except.ok r.row_id

/-- `Cursor.Column` (lines 217-218): `self.row.values[idx]`; raises
`AttributeError` when `self.row` is `None` and `IndexError` when `idx` is
out of range. The host passes non-negative indices, so `idx` is a `Nat`. -/
def Column {α : Type} (c : CursorState α) (idx : Nat) : Except String α :=
  match c.row with
  | none => Except.error "AttributeError: NoneType has no attribute values"
  | some r =>
    match r.values[idx]? with
    | none => Except.error "IndexError: list index out of range"
    | some v => Except.ok v

/-- `Cursor.Next` (lines 220-224): `self.row = self.iter.next()` inside a
`try` that catches only `StopIteration` (which sets `self.eof = True` and
leaves `self.row` as it was). A missing `self.iter` attribute raises
`AttributeError`, which the `except StopIteration` clause does not catch.
Note that a successful pull does NOT reset `self.eof`. -/
def Next {α : Type} (c : CursorState α) : Except String (CursorState α) :=
  match c.iter with
  | none => Except.error "AttributeError: Cursor object has no attribute iter"
  | some [] => Except.ok { c with eof := true }
  | some (r :: rest) => Except.ok { c with row := some r, iter := some rest }

/-- `Cursor.Filter` (lines 206-209): installs a fresh iterator obtained from
`self.row_iterator(index_number, index_name, *constraintargs)` and then
calls `self.Next()` to load the first row. The abstract `row_iterator`
capability is the parameter `rit`; `constraintargs` has an arbitrary type
`ι`. Note that `Filter` does not touch `self.eof`. -/
def Filter {α ι : Type} (rit : Int → Option String → ι → List (Row α))
    (c : CursorState α) (index_number : Int) (index_name : Option String)
    (constraintargs : ι) : Except String (CursorState α) :=
  Next { c with iter := some (rit index_number index_name constraintargs) }

/-- One column read per index `i, i+1, ..., i+k-1`, as the host does between
two `Next` calls. -/
def columnsFrom {α : Type} (c : CursorState α) : Nat → Nat → Except String (List α)
  | _, 0 => Except.ok []
  | i, Nat.succ k =>
    match Column c i with
    | Except.error e => Except.error e
    | Except.ok v =>
      match columnsFrom c (i + 1) k with
      | Except.error e => Except.error e
      | Except.ok vs => Except.ok (v :: vs)

/-- The host reads `Column c 0 .. Column c (n-1)` on the current row. -/
def columnsRead {α : Type} (c : CursorState α) (n : Nat) : Except String (List α) :=
  columnsFrom c 0 n

/-- The host scan loop driven against a cursor: while `Eof` is false, read
`Rowid` and the `n` columns of the current row, then call `Next`. `fuel`
bounds the recursion; every actual scan of a sequence `seq` terminates
within `seq.length + 1` iterations. Returns the observed rows and the final
cursor state. -/
def scanLoop {α : Type} (n : Nat) :
    Nat → CursorState α → Except String (List (Int × List α) × CursorState α)
  | 0, _ => Except.error "out of fuel"
  | Nat.succ fuel, c =>
    match Eof c with
    | true => Except.ok ([], c)
    | false =>
      match Rowid c with
      | Except.error e => Except.error e
      | Except.ok rid =>
        match columnsRead c n with
        | Except.error e => Except.error e
        | Except.ok vals =>
          match Next c with
          | Except.error e => Except.error e
          | Except.ok c2 =>
            match scanLoop n fuel c2 with
            | Except.error e => Except.error e
            | Except.ok (rows, cf) => Except.ok ((rid, vals) :: rows, cf)

/-- A complete host interaction for one query: `Filter` with the given
index/constraint arguments, then the scan loop until `Eof`. -/
def fullScan {α ι : Type} (rit : Int → Option String → ι → List (Row α))
    (n : Nat) (c : CursorState α) (index_number : Int)
    (index_name : Option String) (constraintargs : ι) :
    Except String (List (Int × List α) × CursorState α) :=
  match Filter rit c index_number index_name constraintargs with
  | Except.error e => Except.error e
  | Except.ok c1 =>
    scanLoop n ((rit index_number index_name constraintargs).length + 1) c1

/-- The observable shape of one row: its row id and its column values. -/
def observeRow {α : Type} (r : Row α) : Int × List α :=
  (r.row_id, r.values)

/-- The observable data of a `Table` instance: the values of the
`table_name` and `column_names` properties (lines 110-116), which simply
forward to `get_table_name` and `get_column_names`. -/
structure TableModel where
  table_name : String
  column_names : List String
deriving DecidableEq, Repr

/-- `Table.create_table_sql` (lines 145-152): the string
`CREATE TABLE "%s" (%s)` with the table name substituted into the first
slot and `", ".join(self.column_names)` into the second. Only the table
name is surrounded by double quotes; column names are joined verbatim. -/
def TableModel.create_table_sql (t : TableModel) : String :=
  "CREATE TABLE \"" ++ t.table_name ++ "\" (" ++
    String.intercalate ", " t.column_names ++ ")"

/-- `Table.find_best_index` (lines 118-123): unimplemented, returns `None`
for every input. `γ` is the constraint type, `δ` the ordering type and `ν`
the type of index hints. -/
def find_best_index {γ δ ν : Type} (constraints : List γ) (orders : List δ) :
    Option ν :=
  none

/-- `Table.BestIndex` (lines 154-156): returns `None` regardless of its
arguments (it does not even inspect them), and being a plain `return None`
it can never raise. -/
def BestIndex {β ν : Type} (args : List β) : Option ν :=
  none

/-- A `TableSource` subclass, as the pair of behaviours reachable from the
host entry points: the `connect_table` abstract method (lines 35-50) and
the `create_table` method (lines 52-65), which a subclass may override.
`ρ` stands for the tuple of arguments
`(db, module_name, db_name, table_name, *args)`, passed through verbatim. -/
structure TableSource (ρ : Type) where
  connect_table : ρ → TableModel
  create_table : ρ → TableModel

/-- The default `create_table` body (line 65): delegate to `connect_table`.
A subclass that overrides nothing has `create_table = connect_table`. -/
def TableSource.ofConnect {ρ : Type} (connect : ρ → TableModel) :
    TableSource ρ :=
  ⟨connect, connect⟩

/-- `TableSource.Create` (lines 67-69): call `self.create_table(...)` and
return `(table.create_table_sql, table)`. -/
def TableSource.Create {ρ : Type} (s : TableSource ρ) (args : ρ) :
    String × TableModel :=
  let t := s.create_table args
  (t.create_table_sql, t)

/-- `TableSource.Connect` (lines 71-73): also calls `self.create_table(...)`
(not `connect_table`) and returns `(table.create_table_sql, table)`. -/
def TableSource.Connect {ρ : Type} (s : TableSource ρ) (args : ρ) :
    String × TableModel :=
  let t := s.create_table args
  (t.create_table_sql, t)

/-- The body of the loop in `csv.Cursor.row_iterator` (csv.py lines 43-49):
starting from `idx = 0`, yield `Row(row_id=idx, values=row)` for each
record and then perform the increment written in the source, which is
literally `idx += 0`. -/
def csvRowsFrom (idx : Int) : List (List String) → List (Row String)
  | [] => []
  | record :: rest => ⟨idx, record⟩ :: csvRowsFrom (idx + 0) rest

/-- `csv.Cursor.row_iterator` (csv.py lines 39-49): opens the file again
from the start (modelled as the list of its records), skips the header
record with `reader.next()`, then runs the yield loop. On an empty file the
`reader.next()` raises `StopIteration` inside the generator, which simply
ends the generator: the produced sequence is empty. -/
def csv_row_iterator (fileRecords : List (List String)) : List (Row String) :=
  match fileRecords with
  | [] => []
  | _header :: dataRecords => csvRowsFrom 0 dataRecords

/-- `csv.register_on_connection` (csv.py lines 11-12): the module name
string it passes to `connection.createmodule`, as a function of the `name`
parameter the caller supplied. The body is
`connection.createmodule("csv", Source())`: a literal, not `name`. -/
def csv_register_module_name (name : String) : String :=
  "csv"

/-- A sample row used by several concrete evaluations below. -/
def rowX : Row Nat :=
  ⟨0, [42]⟩

/-- A second sample row. -/
def rowY : Row Nat :=
  ⟨7, [9]⟩

/- ### Helper lemmas about the scan loop -/

/-- Splitting a `drop` that yields a cons: the element at the split index
and the remaining drop. -/
theorem drop_cons_split {α : Type} (l : List α) :
    ∀ (i : Nat) (a : α) (t : List α), l.drop i = a :: t →
      l[i]? = some a ∧ l.drop (i + 1) = t := by
  induction l with
  | nil =>
    intro i a t h
    simp at h
  | cons x xs ih =>
    intro i a t h
    cases i with
    | zero =>
      rw [List.drop_zero] at h
      injection h with h1 h2
      subst h1
      subst h2
      exact ⟨by simp, by simp⟩
    | succ i =>
      rw [List.drop_succ_cons] at h
      obtain ⟨h1, h2⟩ := ih i a t h
      refine ⟨by simpa using h1, by simpa using h2⟩

/-- Reading columns `i, i+1, ...` of a positioned cursor returns exactly
the corresponding suffix of the current row values. -/
theorem columnsFrom_drop {α : Type} (e : Bool) (r : Row α)
    (it : Option (List (Row α))) :
    ∀ (t : List α) (i : Nat), r.values.drop i = t →
      columnsFrom (⟨e, some r, it⟩ : CursorState α) i t.length = Except.ok t := by
  intro t
  induction t with
  | nil =>
    intro i h
    rfl
  | cons a t ih =>
    intro i h
    obtain ⟨h1, h2⟩ := drop_cons_split r.values i a t h
    have hrec := ih (i + 1) h2
    simp [columnsFrom, Column, h1, hrec]

/-- Reading all `n` columns of a positioned cursor whose current row has
exactly `n` values returns those values. -/
theorem columnsRead_values {α : Type} (e : Bool) (r : Row α)
    (it : Option (List (Row α))) (n : Nat) (hn : r.values.length = n) :
    columnsRead (⟨e, some r, it⟩ : CursorState α) n = Except.ok r.values := by
  subst hn
  exact columnsFrom_drop e r it r.values 0 (by simp)

/-- Unfolding of one scan-loop iteration with positive fuel. -/
theorem scanLoop_succ {α : Type} (n fuel : Nat) (c : CursorState α) :
    scanLoop n (fuel + 1) c =
      match Eof c with
      | true => Except.ok ([], c)
      | false =>
        match Rowid c with
        | Except.error e => Except.error e
        | Except.ok rid =>
          match columnsRead c n with
          | Except.error e => Except.error e
          | Except.ok vals =>
            match Next c with
            | Except.error e => Except.error e
            | Except.ok c2 =>
              match scanLoop n fuel c2 with
              | Except.error e => Except.error e
              | Except.ok (rows, cf) => Except.ok ((rid, vals) :: rows, cf) :=
  rfl

/-- With positive fuel, the scan loop on an exhausted cursor stops at
once. -/
theorem scanLoop_exhausted {α : Type} (n : Nat) :
    ∀ fuel, fuel ≠ 0 → ∀ c : CursorState α, c.eof = true →
      scanLoop n fuel c = Except.ok ([], c) := by
  intro fuel hf c hc
  cases fuel with
  | zero => exact absurd rfl hf
  | succ f =>
    rw [scanLoop_succ]
    simp [Eof, hc]

/-- The scan loop, run from a cursor positioned on row `r` with the rest of
the sequence still in the iterator, observes exactly `r` followed by the
rest, provided every row carries the full `n` column values. -/
theorem scanLoop_positioned {α : Type} (n : Nat) :
    ∀ (rest : List (Row α)) (r : Row α), r.values.length = n →
      (∀ x ∈ rest, x.values.length = n) →
      (scanLoop n (rest.length + 2)
          (⟨false, some r, some rest⟩ : CursorState α)).map Prod.fst =
        Except.ok (observeRow r :: rest.map observeRow) := by
  intro rest
  induction rest with
  | nil =>
    intro r hr _
    have hcols := columnsRead_values false r (some []) n hr
    have hend := scanLoop_exhausted n 1 (by simp)
      (⟨true, some r, some []⟩ : CursorState α) rfl
    rw [show ([] : List (Row α)).length + 2 = 1 + 1 from rfl, scanLoop_succ]
    simp [Eof, Rowid, hcols, Next, hend, observeRow, Except.map]
  | cons x xs ih =>
    intro r hr hrest
    have hcols := columnsRead_values false r (some (x :: xs)) n hr
    have hrec := ih x (hrest x (by simp)) (fun y hy => hrest y (by simp [hy]))
    rw [show (x :: xs).length + 2 = (xs.length + 2) + 1 by simp, scanLoop_succ]
    cases hs : scanLoop n (xs.length + 2)
        (⟨false, some x, some xs⟩ : CursorState α) with
    | error e =>
      rw [hs] at hrec
      simp [Except.map] at hrec
    | ok p =>
      obtain ⟨rows, cf⟩ := p
      rw [hs] at hrec
      simp [Except.map] at hrec
      simp [Eof, Rowid, hcols, Next, hs, hrec, observeRow, Except.map]

/- ### Claims -/

/-- C1: on a cursor that already reached EXHAUSTED (eof true), a `Filter`
call over a fresh non-empty row sequence is claimed to move the cursor back
to POSITIONED with `eof()` false. Evaluating the code at that input shows
otherwise: `Filter` never resets `self.eof`, so after refiltering over the
one-row sequence `[rowX]` the cursor has loaded the first row yet `Eof`
still returns true. The first conjunct exhibits how the EXHAUSTED state
arises (a filter over the empty sequence on a fresh cursor). -/
theorem filter_after_exhaustion_keeps_eof :
    Filter (fun _ _ _ => ([] : List (Row Nat))) (initCursor Nat) 0 none
        ([] : List Nat) =
      Except.ok (⟨true, none, some []⟩ : CursorState Nat) ∧
    Filter (fun _ _ _ => [rowX]) (⟨true, none, some []⟩ : CursorState Nat) 0
        none ([] : List Nat) =
      Except.ok (⟨true, some rowX, some []⟩ : CursorState Nat) ∧
    Eof (⟨true, some rowX, some []⟩ : CursorState Nat) = true :=
  ⟨rfl, rfl, rfl⟩

/-- C2 counterexample: for the table named mytable with columns a and b,
`create_table_sql` does not return the claimed string with double quotes
around the column names, because only the table name is quoted and the
column names are joined verbatim. -/
theorem create_table_sql_quoted_columns_counterexample :
    TableModel.create_table_sql ⟨"mytable", ["a", "b"]⟩ ≠
      "CREATE TABLE \"mytable\" (\"a\", \"b\")" := by
  decide

/-- C2 amended: `create_table_sql` for table mytable with columns a and b
returns `CREATE TABLE "mytable" (a, b)`: the table name is quoted, the
column names appear unquoted, comma-joined in declared order, each exactly
once. -/
theorem create_table_sql_unquoted_columns :
    TableModel.create_table_sql ⟨"mytable", ["a", "b"]⟩ =
      "CREATE TABLE \"mytable\" (a, b)" := by
  decide

/-- C3: for a freshly opened cursor and any filter arguments, the sequence
of (row id, column values) pairs observed by the host loop (filter, then
read and next until eof) equals, element for element and in order, the
sequence produced by `row_iterator` for those arguments, with no row
skipped or duplicated. The hypothesis records the `Row` invariant of the
data model: each produced row carries one value per table column. -/
theorem scan_matches_row_iterator {α ι : Type}
    (rit : Int → Option String → ι → List (Row α)) (index_number : Int)
    (index_name : Option String) (constraintargs : ι) (n : Nat)
    (h : ∀ r ∈ rit index_number index_name constraintargs,
      r.values.length = n) :
    (fullScan rit n (initCursor α) index_number index_name
        constraintargs).map Prod.fst =
      Except.ok ((rit index_number index_name constraintargs).map
        observeRow) := by
  unfold fullScan Filter initCursor
  revert h
  generalize rit index_number index_name constraintargs = seq
  intro h
  cases seq with
  | nil =>
    have hend := scanLoop_exhausted n 1 (by simp)
      (⟨true, none, some []⟩ : CursorState α) rfl
    simp [Next, hend, Except.map]
  | cons r rest =>
    have hmain := scanLoop_positioned n rest r (h r (by simp))
      (fun y hy => h y (by simp [hy]))
    have hfuel : rest.length + 2 = (r :: rest).length + 1 := by simp
    rw [hfuel] at hmain
    simpa [Next, Except.map] using hmain

/-- Witness for C3 at a concrete three-row iterator with two columns. -/
theorem scan_matches_row_iterator_witness :
    (fullScan
        (fun (_ : Int) (_ : Option String) (_ : List Nat) =>
          [(⟨0, [10, 11]⟩ : Row Nat), ⟨1, [20, 21]⟩, ⟨2, [30, 31]⟩])
        2 (initCursor Nat) 0 none ([] : List Nat)).map Prod.fst =
      Except.ok [((0 : Int), [10, 11]), ((1 : Int), [20, 21]),
        ((2 : Int), [30, 31])] :=
  scan_matches_row_iterator
    (fun _ _ _ => [⟨0, [10, 11]⟩, ⟨1, [20, 21]⟩, ⟨2, [30, 31]⟩])
    0 none [] 2 (by decide)

/-- The row iterator used for the C4 evaluation: every filter call with any
arguments yields the same single row. -/
def rit42 : Int → Option String → List Nat → List (Row Nat) :=
  fun _ _ _ => [rowX]

/-- The cursor state left behind by the first full scan in the C4
evaluation. -/
def cursorAfterFirstScan : CursorState Nat :=
  ⟨true, some rowX, some []⟩

/-- C4: a second `Filter` call with the same arguments on the same cursor
is claimed to yield the same observable row sequence, including when the
first scan was driven to exhaustion. Evaluating the code: the first full
scan observes the one-row sequence and leaves the cursor exhausted; the
second full scan on that same cursor with the same arguments observes the
empty sequence, because `Filter` rebuilds the iterator but never resets
`self.eof`, so the host loop stops at once. -/
theorem refilter_after_exhaustion_diverges :
    fullScan rit42 1 (initCursor Nat) 0 none ([] : List Nat) =
      Except.ok ([((0 : Int), [42])], cursorAfterFirstScan) ∧
    (fullScan rit42 1 cursorAfterFirstScan 0 none ([] : List Nat)).map
        Prod.fst =
      Except.ok ([] : List (Int × List Nat)) ∧
    ([] : List (Int × List Nat)) ≠ [((0 : Int), [42])] :=
  ⟨rfl, rfl, by decide⟩

/-- C5 counterexample: `current_row` does not become undefined when
`next()` hits sequence exhaustion. On a cursor positioned on `rowX` with an
empty remaining iterator, `Next` sets eof true yet keeps the previously
fetched row: `Rowid` and `Column` still answer from it. -/
theorem exhausted_row_still_readable :
    Next (⟨false, some rowX, some []⟩ : CursorState Nat) =
      Except.ok (⟨true, some rowX, some []⟩ : CursorState Nat) ∧
    Eof (⟨true, some rowX, some []⟩ : CursorState Nat) = true ∧
    Rowid (⟨true, some rowX, some []⟩ : CursorState Nat) = Except.ok 0 ∧
    Column (⟨true, some rowX, some []⟩ : CursorState Nat) 0 =
      Except.ok 42 :=
  ⟨rfl, rfl, rfl, rfl⟩

/-- C5 amended: when `next()` hits sequence exhaustion it sets eof true and
changes nothing else: the previously fetched row stays stored in
`self.row`, and `row_id()` still answers from it. -/
theorem next_exhaustion_sets_eof_keeps_row {α : Type} (c : CursorState α)
    (r : Row α) (hrow : c.row = some r) (hiter : c.iter = some []) :
    Next c = Except.ok { c with eof := true } ∧
    Rowid { c with eof := true } = Except.ok r.row_id := by
  constructor
  · simp [Next, hiter]
  · simp [Rowid, hrow]

/-- Witness for the amended C5 at a concrete exhaustion step. -/
theorem next_exhaustion_sets_eof_keeps_row_witness :
    Next (⟨false, some rowY, some []⟩ : CursorState Nat) =
      Except.ok (⟨true, some rowY, some []⟩ : CursorState Nat) ∧
    Rowid (⟨true, some rowY, some []⟩ : CursorState Nat) = Except.ok 7 :=
  next_exhaustion_sets_eof_keeps_row
    (⟨false, some rowY, some []⟩ : CursorState Nat) rowY rfl rfl

/-- C6: `BestIndex` and `find_best_index` return the no-hint answer `none`
for every input, whatever the constraints and orderings; both are total
Lean functions, the counterpart of the source bodies being a plain
`return None` that cannot raise. -/
theorem best_index_always_none (β γ δ ν : Type) (args : List β)
    (constraints : List γ) (orders : List δ) :
    @BestIndex β ν args = none ∧
    @find_best_index γ δ ν constraints orders = none :=
  ⟨rfl, rfl⟩

/-- C7: calling `Next` on a cursor fresh from `Cursor.__init__`, before any
`Filter` call set `self.iter`, fails with the AttributeError that the
`except StopIteration` clause does not catch; the error propagates to the
caller instead of being absorbed or turned into an eof condition. -/
theorem next_before_filter_errors (α : Type) :
    Next (initCursor α) =
      Except.error "AttributeError: Cursor object has no attribute iter" :=
  rfl

/-- C8: evaluating `csv.Cursor.row_iterator` on a file whose records are a
header plus two data lines. The header is skipped and both data lines are
produced in order, but the produced row ids are 0 and 0, not 0 and 1: the
loop increments its counter with the literal `idx += 0`. -/
theorem csv_row_ids_all_zero :
    csv_row_iterator [["name", "age"], ["alice", "30"], ["bob", "25"]] =
      [⟨0, ["alice", "30"]⟩, ⟨0, ["bob", "25"]⟩] ∧
    (csv_row_iterator [["name", "age"], ["alice", "30"], ["bob", "25"]]).map
        Row.row_id = [0, 0] :=
  ⟨rfl, rfl⟩

/-- C9: the host-facing `Connect` entry point dispatches through
`create_table`, exactly like `Create`: for any `TableSource` built from a
`connect_table` behaviour and a (possibly overriding) `create_table`
behaviour, `Connect` and `Create` agree and both return the pair
`(create_table_sql, table)` for the table produced by `create_table` — the
`connect_table` capability is not consulted. -/
theorem connect_dispatches_create_table {ρ : Type}
    (connect create : ρ → TableModel) (args : ρ) :
    TableSource.Connect ⟨connect, create⟩ args =
      TableSource.Create ⟨connect, create⟩ args ∧
    TableSource.Connect ⟨connect, create⟩ args =
      ((create args).create_table_sql, create args) :=
  ⟨rfl, rfl⟩

/-- C10: `csv.register_on_connection` registers the module under the fixed
string csv whatever the `name` argument says; the parameter cannot change
the registered module name. -/
theorem register_on_connection_ignores_name (name : String) :
    csv_register_module_name name = "csv" ∧
    ∀ other : String, csv_register_module_name name =
      csv_register_module_name other :=
  ⟨rfl, fun _ => rfl⟩

end SqliteVtab
